import Mathlib

/-!
Verification development for the Sure-Proxies backend (user service and
auth controller). The TypeScript sources `user.service.ts` and
`auth.controller.ts` are shallowly embedded: every external call (identity
provider, document store, SMTP transport, clock) is an explicit outcome
parameter, the document store is threaded as an association list, and
observable side effects (store writes, link generation, SMTP sends, log
lines) are recorded in an effect trace.
-/

/-- Opaque model of `admin.firestore.Timestamp`; the payload is the clock
reading (milliseconds). Two separate `Timestamp.now()` calls are modelled as
two separate readings. -/
structure Timestamp where
  ms : Nat
deriving DecidableEq

/-- Modelled from the spec: the repository file `user.model.ts` (defining
`UserRole`) is not part of the sources; §3 of the spec describes the role
as an enumeration with at minimum `USER`, serialized as its string name
(§8 shows `role:"USER"`). -/
inductive UserRole
  | USER
  | other (tag : String)
deriving DecidableEq

/-- Opaque purchase record (spec §3: ordered sequence of opaque records). -/
structure Purchase where
  payload : String
deriving DecidableEq

/-- The `UserDoc` profile shape, as constructed in `UserService.create` and
described in spec §3. -/
structure UserDoc where
  uid : String
  email : String
  fullName : String
  phoneNumber : Option String
  createdAt : Timestamp
  lastLogin : Timestamp
  purchases : List Purchase
  role : UserRole
deriving DecidableEq

/-- A document as stored in the `users` collection: the `UserDoc` fields
plus the possible extra `id` property injected by `findOne`-then-`update`
(documents written by `create` have `extraId = none`). -/
structure StoredDoc where
  fields : UserDoc
  extraId : Option String
deriving DecidableEq

/-- The `users` collection: an association list from document key to
document. `Set` prepends; `List.lookup` reads the most recent binding. -/
abbrev Store := List (String × StoredDoc)

/-- Firestore `doc(k).set(v)` on the association-list store. -/
def storeSet (k : String) (v : StoredDoc) (s : Store) : Store :=
  (k, v) :: s

/-- A JavaScript runtime error as observed by catch blocks: the `code` and
`message` properties consulted by `auth.controller.ts`. -/
structure JsErr where
  code : String
  msg : String
deriving DecidableEq

/-- An error propagated to the HTTP layer: either a NestJS `HttpException`
(message and status) or a re-thrown JavaScript error. -/
inductive Err
  | http (msg : String) (status : Nat)
  | js (e : JsErr)
deriving DecidableEq

/-- The identity-provider account record (only `uid` is consumed). -/
structure AuthRecord where
  uid : String
deriving DecidableEq

/-- `CreateUserDTO` from `user.dto.ts` as consumed by `UserService.create`. -/
structure CreateUserDTO where
  fullName : String
  email : String
  password : String
  phoneNumber : Option String
deriving DecidableEq

/-- Process environment variables read by the two source files. `none`
models an unset variable. -/
structure Env where
  frontendUrl : Option String
  smtpHost : Option String
  smtpPort : Option String
  smtpUser : Option String
  smtpPass : Option String
  emailFrom : Option String
  frontendBaseDomain : Option String
  nodeEnv : Option String
deriving DecidableEq

/-- JavaScript truthiness of a possibly-unset environment string:
`undefined` and the empty string are falsy. -/
def truthyStr : Option String → Bool
  | none => false
  | some s => !s.data.isEmpty

/-- JavaScript `a || b` on a possibly-unset environment string. -/
def jsOrStr (o : Option String) (dflt : String) : String :=
  match o with
  | none => dflt
  | some s => if s.data.isEmpty then dflt else s

/-- The value of a JavaScript `Number(...)` conversion, in exact decimal
form: `num sig exp` denotes `sig * 10 ^ exp` (IEEE rounding is irrelevant
to the decisions the sources take, which are truthiness tests). -/
inductive JsNum
  | nan
  | inf (neg : Bool)
  | num (sig : Int) (exp : Int)
deriving DecidableEq

/-- JavaScript truthiness of a number: `NaN` and `0` are falsy. -/
def jsTruthy : JsNum → Bool
  | .nan => false
  | .inf _ => true
  | .num sig _ => sig != 0

/-- Whitespace stripped by `Number(...)` string conversion. -/
def isJsSpace (c : Char) : Bool :=
  c == ' ' || c == '\t' || c == '\n' || c == '\r' || c == '\x0b' || c == '\x0c'

/-- Trim leading and trailing whitespace from a character list. -/
def jsTrim (l : List Char) : List Char :=
  ((l.dropWhile isJsSpace).reverse.dropWhile isJsSpace).reverse

/-- Split a character list into its leading run of decimal digits and the
rest. -/
def splitDigits : List Char → List Char × List Char
  | [] => ([], [])
  | c :: rest =>
    if c.isDigit then
      let p := splitDigits rest
      (c :: p.1, p.2)
    else ([], c :: rest)

/-- Numeric value of a decimal digit string. -/
def natOfDigits (l : List Char) : Nat :=
  l.foldl (fun a c => a * 10 + (c.toNat - 48)) 0

/-- Value of one digit in bases up to 16, if valid. -/
def hexDigitVal (c : Char) : Option Nat :=
  if c.isDigit then some (c.toNat - 48)
  else if 'a' ≤ c && c ≤ 'f' then some (c.toNat - 87)
  else if 'A' ≤ c && c ≤ 'F' then some (c.toNat - 55)
  else none

/-- Accumulate the value of a digit string in the given radix; `none` on an
invalid digit. -/
def radixCore (radix : Nat) : List Char → Nat → Option Nat
  | [], acc => some acc
  | c :: rest, acc =>
    match hexDigitVal c with
    | some v => if v < radix then radixCore radix rest (acc * radix + v) else none
    | none => none

/-- Parse a `0x`/`0o`/`0b` digit body (sign not permitted by JavaScript). -/
def parseRadix (radix : Nat) (l : List Char) : JsNum :=
  match l with
  | [] => .nan
  | _ =>
    match radixCore radix l 0 with
    | some v => .num (v : Int) 0
    | none => .nan

/-- Parse a decimal literal `digits [. digits] [(e|E) [sign] digits]` with
the sign already consumed. -/
def parseDec (neg : Bool) (l : List Char) : JsNum :=
  let p1 := splitDigits l
  let d1 := p1.1
  let afterInt := p1.2
  let p2 :=
    match afterInt with
    | '.' :: t =>
      let q := splitDigits t
      (q.1, q.2)
    | _ => ([], afterInt)
  let d2 := p2.1
  let r2 := p2.2
  if d1.isEmpty && d2.isEmpty then .nan
  else
    let sigN : Nat := natOfDigits (d1 ++ d2)
    let sig : Int := if neg then -(sigN : Int) else (sigN : Int)
    match r2 with
    | [] => .num sig (-(d2.length : Int))
    | e :: t =>
      if e == 'e' || e == 'E' then
        let q :=
          match t with
          | '+' :: u => (false, u)
          | '-' :: u => (true, u)
          | _ => (false, t)
        let p3 := splitDigits q.2
        if p3.1.isEmpty || !p3.2.isEmpty then .nan
        else
          let ev : Int := (natOfDigits p3.1 : Int)
          .num sig ((if q.1 then -ev else ev) - (d2.length : Int))
      else .nan

/-- Parse after an optional sign: `Infinity` or a decimal literal. -/
def parseSigned (neg : Bool) (l : List Char) : JsNum :=
  if l == "Infinity".data then .inf neg else parseDec neg l

/-- JavaScript `Number(s)` on a string, exact in decimal. -/
def jsNumber (s : String) : JsNum :=
  match jsTrim s.data with
  | [] => .num 0 0
  | '0' :: 'x' :: r => parseRadix 16 r
  | '0' :: 'X' :: r => parseRadix 16 r
  | '0' :: 'o' :: r => parseRadix 8 r
  | '0' :: 'O' :: r => parseRadix 8 r
  | '0' :: 'b' :: r => parseRadix 2 r
  | '0' :: 'B' :: r => parseRadix 2 r
  | '+' :: r => parseSigned false r
  | '-' :: r => parseSigned true r
  | l => parseSigned false l

/-- Does `pat` occur at the head of `l`? -/
def leadMatch : List Char → List Char → Bool
  | [], _ => true
  | _ :: _, [] => false
  | a :: as, b :: bs => a == b && leadMatch as bs

/-- Does `pat` occur anywhere in `l`? -/
def subAt (pat : List Char) : List Char → Bool
  | [] => pat.isEmpty
  | c :: rest => leadMatch pat (c :: rest) || subAt pat rest

/-- JavaScript `hay.includes(needle)` on strings. -/
def hasSub (hay needle : String) : Bool :=
  subAt needle.data hay.data

/-- SMTP_PORT as computed in both sources:
`process.env.SMTP_PORT ? Number(process.env.SMTP_PORT) : undefined`. -/
def portOf (env : Env) : Option JsNum :=
  match env.smtpPort with
  | none => none
  | some s => if s.data.isEmpty then none else some (jsNumber s)

/-- JavaScript truthiness of the possibly-undefined port number. -/
def truthyNumOpt : Option JsNum → Bool
  | none => false
  | some j => jsTruthy j

/-- The `host && port && user && pass` guard shared by
`UserService.sendEmailVerification` and `AuthController.resendVerification`. -/
def smtpConfigured (env : Env) : Bool :=
  truthyStr env.smtpHost && truthyNumOpt (portOf env) &&
    truthyStr env.smtpUser && truthyStr env.smtpPass

/-- The `from` address:
`process.env.EMAIL_FROM || "no-reply@" + (process.env.FRONTEND_BASE_DOMAIN || "localhost")`. -/
def fromAddr (env : Env) : String :=
  jsOrStr env.emailFrom ("no-reply@" ++ jsOrStr env.frontendBaseDomain "localhost")

/-- The action-code redirect URL:
`process.env.FRONTEND_URL ? FRONTEND_URL + "/signin" : "http://localhost:3000/signin"`. -/
def actionUrl (env : Env) : String :=
  match env.frontendUrl with
  | none => "http://localhost:3000/signin"
  | some s => if s.data.isEmpty then "http://localhost:3000/signin" else s ++ "/signin"

/-- Observable side effects of a request: document-store writes (taken
effect, or resolved without taking effect), verification-link generation
attempts, SMTP send attempts, and the console fallbacks. -/
inductive Effect
  | storeWrite (key : String) (doc : StoredDoc)
  | storeWriteLost (key : String) (doc : StoredDoc)
  | genLink (email url : String)
  | smtpSend (fromA toA subject : String)
  | logLink (lk : String)
  | logEmailFail
deriving DecidableEq

/-- Outcome of an awaited `userRef.set(...)`: the write took effect, the
call resolved but the write did not take effect (the inconsistency the
re-read in `create` guards against), or the call rejected. -/
inductive SetOutcome
  | applied
  | lostOk
  | rejected (e : JsErr)
deriving DecidableEq

/-- `UserService.saveUser`: perform the set; a rejection is caught and
re-thrown as `HttpException('Unable to save account information. Please
try again.', 500)`. -/
def saveUserStep (o : SetOutcome) (k : String) (d : StoredDoc) (s : Store) :
    Except Err (Store × List Effect) :=
  match o with
  | .applied => .ok (storeSet k d s, [.storeWrite k d])
  | .lostOk => .ok (s, [.storeWriteLost k d])
  | .rejected _ =>
    .error (.http "Unable to save account information. Please try again." 500)

/-- `UserService.sendEmailVerification`: generate the link, then either
send through SMTP (when host, port, user and pass are all truthy) or log
the link. Every failure is caught and logged; the method never throws,
matching the comment in the source. The `uid` parameter is accepted and
unused, as in the source. -/
def sendEmailVerification (env : Env) (linkResult : Except JsErr String)
    (sendResult : Except JsErr Unit) (uid email : String) : List Effect :=
  match linkResult with
  | .error _ => [.genLink email (actionUrl env), .logEmailFail]
  | .ok lk =>
    if smtpConfigured env then
      match sendResult with
      | .error _ =>
        [.genLink email (actionUrl env),
         .smtpSend (fromAddr env) email "Verify your email for Sure Proxies",
         .logEmailFail]
      | .ok _ =>
        [.genLink email (actionUrl env),
         .smtpSend (fromAddr env) email "Verify your email for Sure Proxies"]
    else
      [.genLink email (actionUrl env), .logLink lk]

/-- The `UserDoc` object literal built in `UserService.create`, with the
two separate `Timestamp.now()` readings made explicit. -/
def mkUserDoc (rec : AuthRecord) (model : CreateUserDTO) (t1 t2 : Timestamp) : UserDoc :=
  { uid := rec.uid, email := model.email, fullName := model.fullName,
    phoneNumber := model.phoneNumber, createdAt := t1, lastLogin := t2,
    purchases := [], role := .USER }

/-- Outcomes of the external calls made during `UserService.create`:
`dbAuth.createUser` (which may resolve to a missing record), the two
`Timestamp.now()` readings, the `userRef.set` outcome, and the outcomes
feeding the best-effort email dispatch. -/
structure CreateExt where
  authResult : Except JsErr (Option AuthRecord)
  now1 : Timestamp
  now2 : Timestamp
  setOutcome : SetOutcome
  linkResult : Except JsErr String
  sendResult : Except JsErr Unit

/-- `UserService.create`: create the provider account, persist the profile
via `saveUser`, attempt the verification email (failures swallowed),
re-read the document and return its fields; a missing re-read is the
`HttpException(..., 500)` integrity failure. The outer catch logs and
re-throws the same error, hence is the identity on errors. -/
def create (env : Env) (ext : CreateExt) (model : CreateUserDTO) (store : Store) :
    Except Err UserDoc × Store × List Effect :=
  match ext.authResult with
  | .error e => (.error (.js e), store, [])
  | .ok none =>
    (.error (.http "Unable to create account. Please try again." 500), store, [])
  | .ok (some rec) =>
    let userData := mkUserDoc rec model ext.now1 ext.now2
    match saveUserStep ext.setOutcome rec.uid { fields := userData, extraId := none } store with
    | .error e => (.error e, store, [])
    | .ok (store1, effs1) =>
      let effs2 := sendEmailVerification env ext.linkResult ext.sendResult rec.uid model.email
      match List.lookup rec.uid store1 with
      | none =>
        (.error (.http "Account created but verification failed. Please contact support." 500),
         store1, effs1 ++ effs2)
      | some d => (.ok d.fields, store1, effs1 ++ effs2)

/-- `UserService.findOne`: read the document; 404 if absent; otherwise
return `{ id: user.id, ...user.data() }` (a stored `id` property, if any,
wins over the injected document key, by spread order). -/
def findOne (id : String) (store : Store) : Except Err StoredDoc :=
  match List.lookup id store with
  | none => .error (.http "Account not found" 404)
  | some d => .ok { fields := d.fields, extraId := some (d.extraId.getD id) }

/-- `UserService.update`: `findOne`, spread the incoming model over the
result (the injected `id` survives because the model has no `id` field),
persist via `saveUser`, return the merged object. -/
def update (id : String) (model : UserDoc) (saveOutcome : SetOutcome) (store : Store) :
    Except Err StoredDoc × Store × List Effect :=
  match findOne id store with
  | .error e => (.error e, store, [])
  | .ok found =>
    let updatedUser : StoredDoc := { fields := model, extraId := found.extraId }
    match saveUserStep saveOutcome id updatedUser store with
    | .error e => (.error e, store, [])
    | .ok (store1, effs) => (.ok updatedUser, store1, effs)

/-- `UserService.resendVerification`: resolve the uid by email — any
failure of `getUserByEmail` becomes `HttpException('Account not found',
404)` — then delegate to the swallowing `sendEmailVerification`. -/
def serviceResendVerification (env : Env) (getUserR : Except JsErr AuthRecord)
    (linkResult : Except JsErr String) (sendResult : Except JsErr Unit)
    (email : String) : Except Err Unit × List Effect :=
  match getUserR with
  | .error _ => (.error (.http "Account not found" 404), [])
  | .ok rec => (.ok (), sendEmailVerification env linkResult sendResult rec.uid email)

/-- Response body of the resend-verification endpoint:
`{ success }` or `{ success, logged, link }`. -/
structure ResendResp where
  success : Bool
  logged : Option Bool
  linkOut : Option String
deriving DecidableEq

/-- Outcomes of the external calls made inside the endpoint try block:
`dbAuth.getUserByEmail`, `dbAuth.generateEmailVerificationLink`, and
`transporter.sendMail`. -/
structure ResendExt where
  getUser : Except JsErr AuthRecord
  linkResult : Except JsErr String
  sendResult : Except JsErr Unit

/-- The catch block of `AuthController.resendVerification`: an error whose
`code` is `auth/user-not-found` or whose `message` contains `user` becomes
404, anything else 500. -/
def mapResendErr (e : JsErr) : Err :=
  if e.code == "auth/user-not-found" || hasSub e.msg "user" then
    .http "Account not found" 404
  else
    .http "Unable to resend verification link" 500

/-- `AuthController.resendVerification` (`POST /auth/resend-verification`):
400 on a falsy email; otherwise resolve the account, generate the link,
and either send through SMTP (returning `{success:true}`) or log the link
(returning `{success:true, logged:true, link}`); every error inside the try
block goes through `mapResendErr`. -/
def resendVerificationEndpoint (env : Env) (ext : ResendExt)
    (emailOpt : Option String) : Except Err ResendResp × List Effect :=
  if truthyStr emailOpt then
    let em := emailOpt.getD ""
    match ext.getUser with
    | .error e => (.error (mapResendErr e), [])
    | .ok _ =>
      match ext.linkResult with
      | .error e => (.error (mapResendErr e), [.genLink em (actionUrl env)])
      | .ok lk =>
        if smtpConfigured env then
          match ext.sendResult with
          | .error e =>
            (.error (mapResendErr e),
             [.genLink em (actionUrl env),
              .smtpSend (fromAddr env) em "Verify your email for Sure Proxies"])
          | .ok _ =>
            (.ok { success := true, logged := none, linkOut := none },
             [.genLink em (actionUrl env),
              .smtpSend (fromAddr env) em "Verify your email for Sure Proxies"])
        else
          (.ok { success := true, logged := some true, linkOut := some lk },
           [.genLink em (actionUrl env), .logLink lk])
  else
    (.error (.http "Email is required" 400), [])

/-- The user record inside the login result; only `role` is consumed by
the cookie code. -/
structure LoginUser where
  role : UserRole
deriving DecidableEq

/-- Result of `authSvc.login` (the auth service file is not part of the
sources; the controller treats it as a black box yielding `idToken` and
`user`). -/
structure LoginResult where
  idToken : String
  user : LoginUser
deriving DecidableEq

/-- The cookie placed by `res.cookie` in the login handler (`maxAgeMs` is
the express `maxAge` option, in milliseconds). -/
structure Cookie where
  name : String
  value : String
  httpOnly : Bool
  sameSite : String
  maxAgeMs : Nat
  secure : Bool
  path : String
deriving DecidableEq

/-- Lower-case hexadecimal digit. -/
def hexDigit (n : Nat) : Char :=
  if n < 10 then Char.ofNat (48 + n) else Char.ofNat (87 + n)

/-- JSON string escaping as performed by `JSON.stringify` (quote,
backslash, the short control escapes, `\u00xx` for other controls). -/
def jsonEscapeChar (c : Char) : List Char :=
  if c = '"' then ['\\', '"']
  else if c = '\\' then ['\\', '\\']
  else if c = '\x08' then ['\\', 'b']
  else if c = '\x0c' then ['\\', 'f']
  else if c = '\n' then ['\\', 'n']
  else if c = '\r' then ['\\', 'r']
  else if c = '\t' then ['\\', 't']
  else if c.toNat < 32 then
    ['\\', 'u', '0', '0', hexDigit (c.toNat / 16), hexDigit (c.toNat % 16)]
  else [c]

/-- A JSON string literal with quotes and escaping. -/
def jsonQuote (s : String) : String :=
  ⟨'"' :: (s.data.map jsonEscapeChar).flatten ++ ['"']⟩

/-- Modelled from the spec: serialization of a role value; `user.model.ts`
is not in the sources, and spec §8 shows `role:"USER"`, so a role
serializes as its string name. -/
def roleStr : UserRole → String
  | .USER => "USER"
  | .other tag => tag

/-- `JSON.stringify({ t: idToken, r: role })` with properties in source
order. -/
def sessionJson (tok : String) (r : UserRole) : String :=
  "\x7b\"t\":" ++ jsonQuote tok ++ ",\"r\":" ++ jsonQuote (roleStr r) ++ "\x7d"

/-- UTF-8 encoding of one character (as byte values). -/
def utf8Char (c : Char) : List Nat :=
  let n := c.toNat
  if n < 128 then [n]
  else if n < 2048 then [192 + n / 64, 128 + n % 64]
  else if n < 65536 then [224 + n / 4096, 128 + n / 64 % 64, 128 + n % 64]
  else [240 + n / 262144, 128 + n / 4096 % 64, 128 + n / 64 % 64, 128 + n % 64]

/-- `Buffer.from(s, "utf8")` as a list of byte values. -/
def utf8Bytes (s : String) : List Nat :=
  (s.data.map utf8Char).flatten

/-- The base64 alphabet. -/
def base64Chars : List Char :=
  "ABCDEFGHIJKLMNOPQRSTUVWXYZabcdefghijklmnopqrstuvwxyz0123456789+/".data

/-- Character of one 6-bit group. -/
def b64char (n : Nat) : Char :=
  base64Chars.getD n 'A'

/-- Standard base64 with padding over byte values, three bytes at a time. -/
def base64Core : List Nat → List Char
  | [] => []
  | [a] => [b64char (a / 4), b64char (a % 4 * 16), '=', '=']
  | [a, b] => [b64char (a / 4), b64char (a % 4 * 16 + b / 16), b64char (b % 16 * 4), '=']
  | a :: b :: c :: rest =>
    b64char (a / 4) :: b64char (a % 4 * 16 + b / 16) ::
      b64char (b % 16 * 4 + c / 64) :: b64char (c % 64) :: base64Core rest

/-- `buffer.toString("base64")`. -/
def base64Encode (bytes : List Nat) : String :=
  ⟨base64Core bytes⟩

/-- The cookie constructed in `AuthController.login`:
`sp_auth = base64(JSON.stringify({t, r}))`, HttpOnly, SameSite lax,
`maxAge` twelve hours in milliseconds, `Secure` exactly when
`process.env.NODE_ENV === "production"`, path `/`. -/
def mkAuthCookie (env : Env) (r : LoginResult) : Cookie :=
  { name := "sp_auth",
    value := base64Encode (utf8Bytes (sessionJson r.idToken r.user.role)),
    httpOnly := true,
    sameSite := "lax",
    maxAgeMs := 12 * 60 * 60 * 1000,
    secure := env.nodeEnv == some "production",
    path := "/" }

/-- `AuthController.login`: delegate to the auth service; on success place
the session cookie and return the service result. The cookie try/catch
never fires in this model because the cookie construction is total. -/
def loginHandler (env : Env) (loginOutcome : Except Err LoginResult) :
    Except Err (LoginResult × Cookie) :=
  match loginOutcome with
  | .error e => .error e
  | .ok r => .ok (r, mkAuthCookie env r)

/-- Environment with every variable unset. -/
def envEmpty : Env :=
  { frontendUrl := none, smtpHost := none, smtpPort := none, smtpUser := none,
    smtpPass := none, emailFrom := none, frontendBaseDomain := none, nodeEnv := none }

/-- Environment with a complete SMTP configuration. -/
def envSmtp : Env :=
  { envEmpty with smtpHost := some "smtp.example.com", smtpPort := some "587",
                  smtpUser := some "mailer", smtpPass := some "pw" }

/-- SMTP environment whose port string parses to the falsy number `0`. -/
def envPort0 : Env :=
  { envSmtp with smtpPort := some "0" }

/-- Production-flagged environment. -/
def envProd : Env :=
  { envEmpty with nodeEnv := some "production" }

/-- A concrete creation request (spec §8 scenario). -/
def dto0 : CreateUserDTO :=
  { fullName := "A", email := "a@x.com", password := "secret1", phoneNumber := none }

/-- A concrete provider account record. -/
def rec0 : AuthRecord :=
  { uid := "u1" }

/-- Helper: looking up the key just set returns the document just set. -/
theorem lookup_storeSet_self (k : String) (v : StoredDoc) (s : Store) :
    List.lookup k (storeSet k v s) = some v := by
  simp [storeSet, List.lookup]

/-- C1 (amended): for every creation request on a fresh provider uid, a
successful return of `create` means the final store holds, keyed by the
provider-issued uid, the document built in the call: `purchases = []`,
`role = USER`, its `uid` field equal to the provider uid, `createdAt` the
first `Timestamp.now()` reading and `lastLogin` the second (these coincide
whenever the clock does not advance between the two consecutive reads),
and the returned value is that document. -/
theorem c1_create_persists (env : Env) (ext : CreateExt) (model : CreateUserDTO)
    (store : Store) (rec : AuthRecord) (u : UserDoc)
    (hauth : ext.authResult = .ok (some rec))
    (hfresh : List.lookup rec.uid store = none)
    (hok : (create env ext model store).1 = .ok u) :
    List.lookup rec.uid (create env ext model store).2.1 =
      some { fields := mkUserDoc rec model ext.now1 ext.now2, extraId := none } ∧
    u = mkUserDoc rec model ext.now1 ext.now2 ∧
    u.uid = rec.uid ∧ u.purchases = [] ∧ u.role = .USER ∧
    u.createdAt = ext.now1 ∧ u.lastLogin = ext.now2 := by
  obtain ⟨ar, n1, n2, so, lr, sr⟩ := ext
  replace hauth : ar = Except.ok (some rec) := hauth
  subst hauth
  cases so with
  | applied =>
    simp [create, saveUserStep, lookup_storeSet_self] at hok ⊢
    subst hok
    simp [mkUserDoc]
  | lostOk =>
    simp [create, saveUserStep, hfresh] at hok
  | rejected e =>
    simp [create, saveUserStep] at hok

/-- A create run whose two `Timestamp.now()` readings differ. -/
def extTs : CreateExt :=
  { authResult := .ok (some rec0), now1 := { ms := 0 }, now2 := { ms := 1 },
    setOutcome := .applied, linkResult := .ok "L", sendResult := .ok () }

/-- A create run whose two clock readings coincide. -/
def extSame : CreateExt :=
  { extTs with now2 := { ms := 0 } }

/-- A create run whose document write resolves without taking effect. -/
def extLost : CreateExt :=
  { extTs with setOutcome := .lostOk }

/-- A create run whose SMTP send rejects. -/
def extMailFail : CreateExt :=
  { authResult := .ok (some rec0), now1 := { ms := 3 }, now2 := { ms := 4 },
    setOutcome := .applied, linkResult := .ok "L",
    sendResult := .error { code := "ESOCKET", msg := "connection reset by peer" } }

/-- C1 counterexample: `create` calls `Timestamp.now()` twice — once for
`createdAt`, once for `lastLogin`. In a run where the clock advances
between the two reads (first reading 0, second reading 1), `create`
succeeds yet the persisted and returned document has
`createdAt ≠ lastLogin`, refuting the claimed equality. -/
theorem c1_counterexample :
    (create envEmpty extTs dto0 []).1 =
      .ok { uid := "u1", email := "a@x.com", fullName := "A", phoneNumber := none,
            createdAt := { ms := 0 }, lastLogin := { ms := 1 },
            purchases := [], role := .USER } ∧
    ({ ms := 0 } : Timestamp) ≠ { ms := 1 } :=
  ⟨rfl, by decide⟩

/-- C1 witness: concrete instance of the amended theorem — fresh uid,
coinciding clock reads — the document is persisted under `u1` with the
stated fields, and there `createdAt = lastLogin`. -/
theorem c1_witness :
    extSame.authResult = .ok (some rec0) ∧
    List.lookup "u1" ([] : Store) = (none : Option StoredDoc) ∧
    List.lookup "u1" (create envEmpty extSame dto0 []).2.1 =
      some { fields := mkUserDoc rec0 dto0 { ms := 0 } { ms := 0 }, extraId := none } ∧
    (mkUserDoc rec0 dto0 { ms := 0 } { ms := 0 }).createdAt =
      (mkUserDoc rec0 dto0 { ms := 0 } { ms := 0 }).lastLogin :=
  ⟨rfl, rfl,
   (c1_create_persists envEmpty extSame dto0 [] rec0
      (mkUserDoc rec0 dto0 { ms := 0 } { ms := 0 }) rfl rfl rfl).1, rfl⟩

/-- C2: when the provider account creation succeeds and the document write
takes effect, `create` returns success whatever the outcomes of
verification-link generation and SMTP transport are — the email failure is
never propagated (both `sendEmailVerification` and the wrapper in `create`
swallow it). -/
theorem c2_create_email_immune (env : Env) (ext : CreateExt) (model : CreateUserDTO)
    (store : Store) (rec : AuthRecord)
    (hauth : ext.authResult = .ok (some rec))
    (hset : ext.setOutcome = .applied) :
    (create env ext model store).1 = .ok (mkUserDoc rec model ext.now1 ext.now2) := by
  obtain ⟨ar, n1, n2, so, lr, sr⟩ := ext
  replace hauth : ar = Except.ok (some rec) := hauth
  replace hset : so = SetOutcome.applied := hset
  subst hauth hset
  simp [create, saveUserStep, lookup_storeSet_self]

/-- C2 witness: with SMTP configured and the transport rejecting,
creation still returns the created profile. -/
theorem c2_witness :
    extMailFail.authResult = .ok (some rec0) ∧
    extMailFail.setOutcome = .applied ∧
    (create envSmtp extMailFail dto0 []).1 =
      .ok (mkUserDoc rec0 dto0 { ms := 3 } { ms := 4 }) :=
  ⟨rfl, rfl, c2_create_email_immune envSmtp extMailFail dto0 [] rec0 rfl rfl⟩

/-- C5: when the document write raised no error, `create` re-reads the
document under the provider uid and returns its contents; if the re-read
finds no document (write resolved but did not take effect, uid fresh),
`create` fails with the internal 500 integrity error. -/
theorem c5_create_reread (env : Env) (ext : CreateExt) (model : CreateUserDTO)
    (store : Store) (rec : AuthRecord)
    (hauth : ext.authResult = .ok (some rec)) :
    (ext.setOutcome = .lostOk → List.lookup rec.uid store = none →
      (create env ext model store).1 =
        .error (.http "Account created but verification failed. Please contact support." 500)) ∧
    (∀ d : StoredDoc, ext.setOutcome = .lostOk → List.lookup rec.uid store = some d →
      (create env ext model store).1 = .ok d.fields) ∧
    (ext.setOutcome = .applied →
      (create env ext model store).1 = .ok (mkUserDoc rec model ext.now1 ext.now2)) := by
  obtain ⟨ar, n1, n2, so, lr, sr⟩ := ext
  replace hauth : ar = Except.ok (some rec) := hauth
  subst hauth
  refine ⟨?_, ?_, ?_⟩
  · intro hso hmiss
    replace hso : so = SetOutcome.lostOk := hso
    subst hso
    simp [create, saveUserStep, hmiss]
  · intro d hso hfound
    replace hso : so = SetOutcome.lostOk := hso
    subst hso
    simp [create, saveUserStep, hfound]
  · intro hso
    replace hso : so = SetOutcome.applied := hso
    subst hso
    simp [create, saveUserStep, lookup_storeSet_self]

/-- C5 witness: a run in which the write resolved without taking effect on
a fresh uid — `create` fails with the 500 integrity error. -/
theorem c5_witness :
    extLost.authResult = .ok (some rec0) ∧
    extLost.setOutcome = .lostOk ∧
    List.lookup "u1" ([] : Store) = (none : Option StoredDoc) ∧
    (create envEmpty extLost dto0 []).1 =
      .error (.http "Account created but verification failed. Please contact support." 500) :=
  ⟨rfl, rfl, rfl, (c5_create_reread envEmpty extLost dto0 [] rec0 rfl).1 rfl rfl⟩

/-- C7: `update` on an id with no document fails with
`HttpException('Account not found', 404)` and performs no write — the
store and the effect trace come back unchanged and empty. -/
theorem c7_update_missing (id : String) (model : UserDoc) (saveOutcome : SetOutcome)
    (store : Store) (h : List.lookup id store = none) :
    update id model saveOutcome store =
      (.error (.http "Account not found" 404), store, ([] : List Effect)) := by
  simp [update, findOne, h]

/-- A concrete stored profile document (as written by `create`). -/
def udoc0 : UserDoc :=
  mkUserDoc rec0 dto0 { ms := 0 } { ms := 0 }

/-- A concrete update payload. -/
def udoc1 : UserDoc :=
  { udoc0 with fullName := "B" }

/-- A store holding one profile under key `u1`. -/
def store0 : Store :=
  [("u1", { fields := udoc0, extraId := none })]

/-- C7 witness: updating a missing id on the empty store yields 404 and
leaves the store untouched. -/
theorem c7_witness :
    List.lookup "nope" ([] : Store) = (none : Option StoredDoc) ∧
    update "nope" udoc1 .applied [] =
      (.error (.http "Account not found" 404), ([] : Store), ([] : List Effect)) :=
  ⟨rfl, c7_update_missing "nope" udoc1 .applied [] rfl⟩

/-- C9: a successful `update` on an existing document (stored with a
consistent extra `id`, as every document written by this service is)
returns and persists a document carrying the extra `id` property equal to
the document key — `findOne` injects `id: user.id` and the merge spreads
the model over that result, so `id` survives. -/
theorem c9_update_injects_id (id : String) (model : UserDoc) (store : Store)
    (d : StoredDoc)
    (hfound : List.lookup id store = some d)
    (hid : d.extraId.getD id = id) :
    (update id model .applied store).1 = .ok { fields := model, extraId := some id } ∧
    List.lookup id (update id model .applied store).2.1 =
      some { fields := model, extraId := some id } := by
  simp [update, findOne, hfound, hid, saveUserStep, lookup_storeSet_self]

/-- C9 witness: updating the freshly created `u1` document returns and
persists the merged document with the extra `id = "u1"` property. -/
theorem c9_witness :
    List.lookup "u1" store0 = some { fields := udoc0, extraId := none } ∧
    (update "u1" udoc1 .applied store0).1 =
      .ok { fields := udoc1, extraId := some "u1" } ∧
    List.lookup "u1" (update "u1" udoc1 .applied store0).2.1 =
      some { fields := udoc1, extraId := some "u1" } :=
  ⟨rfl,
   (c9_update_injects_id "u1" udoc1 store0 { fields := udoc0, extraId := none } rfl rfl).1,
   (c9_update_injects_id "u1" udoc1 store0 { fields := udoc0, extraId := none } rfl rfl).2⟩

/-- C3 (amended): in the `resend-verification` endpoint, when the account
resolves, the link generates, SMTP is configured and the transport
rejects, the request does fail: the thrown transport error goes through
the catch-block mapping — 404 when its message contains `user`, otherwise
500. (Only the internal `sendEmailVerification` used by account creation
swallows transport failures.) -/
theorem c3_smtp_failure_fails_request (env : Env) (ext : ResendExt) (em : String)
    (e : JsErr) (rec : AuthRecord) (lk : String)
    (hem : em.data.isEmpty = false)
    (hg : ext.getUser = .ok rec)
    (hl : ext.linkResult = .ok lk)
    (hc : smtpConfigured env = true)
    (hs : ext.sendResult = .error e) :
    (resendVerificationEndpoint env ext (some em)).1 = .error (mapResendErr e) ∧
    (mapResendErr e = .http "Account not found" 404 ∨
      mapResendErr e = .http "Unable to resend verification link" 500) := by
  obtain ⟨g, l, s⟩ := ext
  replace hg : g = Except.ok rec := hg
  replace hl : l = Except.ok lk := hl
  replace hs : s = Except.error e := hs
  subst hg hl hs
  constructor
  · simp [resendVerificationEndpoint, truthyStr, hem, hc]
  · unfold mapResendErr
    split
    · exact Or.inl rfl
    · exact Or.inr rfl

/-- A resend run whose SMTP transport rejects with a message not
containing `user`. -/
def extSendFail : ResendExt :=
  { getUser := .ok rec0, linkResult := .ok "L",
    sendResult := .error { code := "ESOCKET", msg := "connection reset by peer" } }

/-- C3 counterexample: with SMTP fully configured, an existing account and
a transport rejection, the endpoint fails the request with 500 — refuting
the claim that only address-resolution failure may fail the request. -/
theorem c3_counterexample :
    (resendVerificationEndpoint envSmtp extSendFail (some "a@x.com")).1 =
      .error (.http "Unable to resend verification link" 500) := rfl

/-- C3 witness: concrete instance of the amended theorem on the transport
rejection above. -/
theorem c3_witness :
    smtpConfigured envSmtp = true ∧
    (resendVerificationEndpoint envSmtp extSendFail (some "a@x.com")).1 =
      .error (mapResendErr { code := "ESOCKET", msg := "connection reset by peer" }) :=
  ⟨rfl, (c3_smtp_failure_fails_request envSmtp extSendFail "a@x.com"
      { code := "ESOCKET", msg := "connection reset by peer" } rec0 "L"
      rfl rfl rfl rfl rfl).1⟩

/-- C4 (amended): when the provider lookup rejects with
`auth/user-not-found`, the endpoint fails with 404 and performs no effect
at all (in particular no SMTP attempt); any other provider failure fails
with 500 only when its message does not contain `user` — a provider
failure whose message contains `user` is mapped to 404 instead. -/
theorem c4_resend_provider_errors (env : Env) (ext : ResendExt) (em : String)
    (e : JsErr)
    (hem : em.data.isEmpty = false)
    (hg : ext.getUser = .error e) :
    (e.code = "auth/user-not-found" →
      resendVerificationEndpoint env ext (some em) =
        (.error (.http "Account not found" 404), ([] : List Effect))) ∧
    (e.code ≠ "auth/user-not-found" → hasSub e.msg "user" = false →
      resendVerificationEndpoint env ext (some em) =
        (.error (.http "Unable to resend verification link" 500), ([] : List Effect))) ∧
    (hasSub e.msg "user" = true →
      resendVerificationEndpoint env ext (some em) =
        (.error (.http "Account not found" 404), ([] : List Effect))) := by
  obtain ⟨g, l, s⟩ := ext
  replace hg : g = Except.error e := hg
  subst hg
  refine ⟨?_, ?_, ?_⟩
  · intro hcode
    simp [resendVerificationEndpoint, truthyStr, hem, mapResendErr, hcode]
  · intro hcode hmsg
    simp [resendVerificationEndpoint, truthyStr, hem, mapResendErr, hcode, hmsg]
  · intro hmsg
    simp [resendVerificationEndpoint, truthyStr, hem, mapResendErr, hmsg]

/-- A provider failure that is not `auth/user-not-found` but whose message
contains the substring `user`. -/
def errUserMsg : JsErr :=
  { code := "auth/too-many-requests", msg := "too many user lookups" }

/-- Resend run failing at provider lookup with `errUserMsg`. -/
def extUserMsg : ResendExt :=
  { getUser := .error errUserMsg, linkResult := .ok "L", sendResult := .ok () }

/-- C4 counterexample: a provider failure other than "no such user"
(`auth/too-many-requests`) whose message happens to contain `user` is
answered with 404, not the claimed 500. -/
theorem c4_counterexample :
    (resendVerificationEndpoint envEmpty extUserMsg (some "a@x.com")).1 =
      .error (.http "Account not found" 404) ∧
    errUserMsg.code ≠ "auth/user-not-found" :=
  ⟨rfl, by decide⟩

/-- The provider's user-not-found rejection. -/
def errNotFound : JsErr :=
  { code := "auth/user-not-found", msg := "no user record" }

/-- Resend run failing at provider lookup with user-not-found. -/
def extNotFound : ResendExt :=
  { getUser := .error errNotFound, linkResult := .ok "L", sendResult := .ok () }

/-- C4 witness: user-not-found yields 404 with an empty effect trace even
though SMTP is fully configured — no SMTP delivery is attempted. -/
theorem c4_witness :
    errNotFound.code = "auth/user-not-found" ∧
    resendVerificationEndpoint envSmtp extNotFound (some "a@x.com") =
      (.error (.http "Account not found" 404), ([] : List Effect)) :=
  ⟨rfl, (c4_resend_provider_errors envSmtp extNotFound "a@x.com" errNotFound rfl rfl).1 rfl⟩

/-- C8: every error thrown inside the endpoint try block whose message
contains the substring `user` — provider lookup, link generation, or SMTP
transport — is answered with 404 `Account not found` rather than 500. -/
theorem c8_user_substring_yields_404 (env : Env) (ext : ResendExt) (em : String)
    (e : JsErr) (rec : AuthRecord) (lk : String)
    (hem : em.data.isEmpty = false)
    (hu : hasSub e.msg "user" = true) :
    (ext.getUser = .error e →
      (resendVerificationEndpoint env ext (some em)).1 =
        .error (.http "Account not found" 404)) ∧
    (ext.getUser = .ok rec → ext.linkResult = .error e →
      (resendVerificationEndpoint env ext (some em)).1 =
        .error (.http "Account not found" 404)) ∧
    (ext.getUser = .ok rec → ext.linkResult = .ok lk → smtpConfigured env = true →
      ext.sendResult = .error e →
      (resendVerificationEndpoint env ext (some em)).1 =
        .error (.http "Account not found" 404)) := by
  obtain ⟨g, l, s⟩ := ext
  refine ⟨?_, ?_, ?_⟩
  · intro hg
    replace hg : g = Except.error e := hg
    subst hg
    simp [resendVerificationEndpoint, truthyStr, hem, mapResendErr, hu]
  · intro hg hl
    replace hg : g = Except.ok rec := hg
    replace hl : l = Except.error e := hl
    subst hg hl
    simp [resendVerificationEndpoint, truthyStr, hem, mapResendErr, hu]
  · intro hg hl hc hs
    replace hg : g = Except.ok rec := hg
    replace hl : l = Except.ok lk := hl
    replace hs : s = Except.error e := hs
    subst hg hl hs
    simp [resendVerificationEndpoint, truthyStr, hem, mapResendErr, hu, hc]

/-- An SMTP transport failure unrelated to account existence whose message
contains `user`. -/
def errSmtpUser : JsErr :=
  { code := "EMSG", msg := "bad user data in stream" }

/-- Resend run whose SMTP send rejects with `errSmtpUser`. -/
def extSmtpUserErr : ResendExt :=
  { getUser := .ok rec0, linkResult := .ok "L", sendResult := .error errSmtpUser }

/-- C8 witness: an SMTP transport error mentioning `user` makes the
endpoint answer 404 even though the account exists. -/
theorem c8_witness :
    hasSub errSmtpUser.msg "user" = true ∧
    smtpConfigured envSmtp = true ∧
    (resendVerificationEndpoint envSmtp extSmtpUserErr (some "a@x.com")).1 =
      .error (.http "Account not found" 404) :=
  ⟨rfl, rfl,
   (c8_user_substring_yields_404 envSmtp extSmtpUserErr "a@x.com" errSmtpUser rec0 "L"
      rfl rfl).2.2 rfl rfl rfl rfl⟩

/-- A set-but-falsy SMTP_PORT makes the whole `host && port && user && pass`
guard false. -/
theorem smtpConfigured_false_of_falsy_port (env : Env) (s : String)
    (hport : env.smtpPort = some s)
    (hfalsy : jsTruthy (jsNumber s) = false) :
    smtpConfigured env = false := by
  unfold smtpConfigured portOf truthyNumOpt
  rw [hport]
  by_cases hs : s.data.isEmpty
  · simp [hs]
  · simp [hs, hfalsy]

/-- C10: when SMTP_PORT is set but `Number(SMTP_PORT)` is falsy (0 or
NaN), both the resend endpoint and the service email dispatch treat SMTP
as not configured regardless of host, user and password: no delivery is
attempted, the link is logged, and the endpoint returns
`{success:true, logged:true, link}`. -/
theorem c10_falsy_port_unconfigured (env : Env) (ext : ResendExt) (em s : String)
    (rec : AuthRecord) (lk : String)
    (sendR : Except JsErr Unit) (uid2 em2 lk2 : String)
    (hport : env.smtpPort = some s)
    (hfalsy : jsTruthy (jsNumber s) = false)
    (hem : em.data.isEmpty = false)
    (hg : ext.getUser = .ok rec)
    (hl : ext.linkResult = .ok lk) :
    resendVerificationEndpoint env ext (some em) =
      (.ok { success := true, logged := some true, linkOut := some lk },
       [.genLink em (actionUrl env), .logLink lk]) ∧
    sendEmailVerification env (.ok lk2) sendR uid2 em2 =
      [.genLink em2 (actionUrl env), .logLink lk2] := by
  have hc := smtpConfigured_false_of_falsy_port env s hport hfalsy
  obtain ⟨g, l, sR⟩ := ext
  replace hg : g = Except.ok rec := hg
  replace hl : l = Except.ok lk := hl
  subst hg hl
  constructor
  · simp [resendVerificationEndpoint, truthyStr, hem, hc]
  · simp [sendEmailVerification, hc]

/-- A resend run in which every external call succeeds. -/
def extOkResend : ResendExt :=
  { getUser := .ok rec0, linkResult := .ok "L", sendResult := .ok () }

/-- C10 witness: SMTP_PORT set to `"0"` with host, user and password all
present — the endpoint logs the link and reports
`{success:true, logged:true, link}` with no SMTP send in the trace. -/
theorem c10_witness :
    envPort0.smtpPort = some "0" ∧
    jsTruthy (jsNumber "0") = false ∧
    truthyStr envPort0.smtpHost = true ∧
    truthyStr envPort0.smtpUser = true ∧
    truthyStr envPort0.smtpPass = true ∧
    resendVerificationEndpoint envPort0 extOkResend (some "a@x.com") =
      (.ok { success := true, logged := some true, linkOut := some "L" },
       [.genLink "a@x.com" (actionUrl envPort0), .logLink "L"]) :=
  ⟨rfl, rfl, rfl, rfl, rfl,
   (c10_falsy_port_unconfigured envPort0 extOkResend "a@x.com" "0" rec0 "L"
      (.ok ()) "u" "e" "l" rfl rfl rfl rfl rfl).1⟩

/-- C6: every successful login is answered together with a cookie named
`sp_auth` whose value is the base64 encoding of the UTF-8 bytes of
`JSON.stringify({t: idToken, r: role})`, HttpOnly, SameSite lax, path `/`,
max-age twelve hours (in express milliseconds), and Secure exactly when
`NODE_ENV === "production"`. -/
theorem c6_login_cookie (env : Env) (o : Except Err LoginResult) (r : LoginResult)
    (h : o = .ok r) :
    loginHandler env o =
      .ok (r, { name := "sp_auth",
                value := base64Encode (utf8Bytes (sessionJson r.idToken r.user.role)),
                httpOnly := true, sameSite := "lax", maxAgeMs := 12 * 60 * 60 * 1000,
                secure := env.nodeEnv == some "production", path := "/" }) ∧
    ((mkAuthCookie env r).secure = true ↔ env.nodeEnv = some "production") := by
  subst h
  refine ⟨rfl, ?_⟩
  simp [mkAuthCookie]

/-- A concrete login result. -/
def loginR0 : LoginResult :=
  { idToken := "abc", user := { role := .USER } }

/-- C6 witness: in a production-flagged environment a successful login for
token `abc` and role `USER` sets the fully evaluated cookie — its value is
the base64 text of the JSON payload and `secure = true`. -/
theorem c6_witness :
    loginHandler envProd (.ok loginR0) =
      .ok (loginR0,
           { name := "sp_auth", value := "eyJ0IjoiYWJjIiwiciI6IlVTRVIifQ==",
             httpOnly := true, sameSite := "lax", maxAgeMs := 43200000,
             secure := true, path := "/" }) ∧
    envProd.nodeEnv = some "production" := by
  have h := c6_login_cookie envProd (.ok loginR0) loginR0 rfl
  refine ⟨?_, rfl⟩
  rw [h.1]
  rfl
